import Mathlib

/-!
Verification of the chat-relay service in `api.py` against its
natural-language specification.

The service exposes two Flask routes:
  * `POST /api/chat`  — `chat` below
  * `GET /api/health` — `health_check` below

The embedding is shallow: JSON values are the inductive `JValue`, the
inbound request body is `InboundBody` (either a value that `request.get_json()`
produced, or `malformed` when `get_json` itself raised), Python exceptions
that can occur inside the handler are `PyExc`, and the upstream Groq client
is an oracle `Upstream` mapping the outbound request to either a returned
completion or a raised exception.  The Python `try` block is `tryChat`,
whose result is either a returned response or a raised exception, and the
`except Exception` clause is the wrapper `chat`, which maps any raised
exception to a 500 response carrying its string representation.
-/

/-- A JSON value, as produced by Flask's `request.get_json()` after a
successful parse.  Numbers are modelled as integers. -/
inductive JValue where
  | jnull
  | jbool (b : Bool)
  | jint (n : Int)
  | jstr (s : String)
  | jarr (elems : List JValue)
  | jobj (fields : List (String × JValue))

/-- Python truthiness (`bool(v)`) of a JSON value: `None`, `False`, `0`,
the empty string, the empty list and the empty dict are falsy, everything
else is truthy.  Used by the source line `if not user_message:`. -/
def truthy : JValue → Bool
  | .jnull => false
  | .jbool b => b
  | .jint n => decide (n ≠ 0)
  | .jstr s => decide (s ≠ "")
  | .jarr es => !es.isEmpty
  | .jobj fs => !fs.isEmpty

/-- `dict` key lookup, first match: the lookup underlying Python's
`data.get(key, default)`. -/
def lookupField : List (String × JValue) → String → Option JValue
  | [], _ => none
  | (k, v) :: rest, key => if k = key then some v else lookupField rest key

/-- The inbound HTTP body as seen by `request.get_json()`: either it parses
to a JSON value, or parsing raises (malformed JSON, wrong content type);
`detail` stands for the text of the exception raised by Flask. -/
inductive InboundBody where
  | malformed (detail : String)
  | wellFormed (v : JValue)

/-- The Python name of the type of a JSON value, as it appears in the
`AttributeError` message when `data.get` is called on a non-dict. -/
def pyTypeName : JValue → String
  | .jnull => "NoneType"
  | .jbool _ => "bool"
  | .jint _ => "int"
  | .jstr _ => "str"
  | .jarr _ => "list"
  | .jobj _ => "dict"

/-- The exceptions that can be raised inside the `try` block of `chat`:
`request.get_json()` raising on a bad body, `data.get` on a non-dict,
`choices[0]` on an empty list, and anything raised by the Groq client
call (network errors, upstream error responses, and so on). -/
inductive PyExc where
  | badRequest (detail : String)
  | attributeError (tyName : String)
  | indexError
  | apiError (detail : String)
  deriving Repr, DecidableEq

/-- The string representation `str(e)` of a raised exception, which the
handler forwards verbatim in the 500 body. -/
def PyExc.str : PyExc → String
  | .badRequest d => "400 Bad Request: " ++ d
  | .attributeError t => t ++ " object has no attribute get"
  | .indexError => "list index out of range"
  | .apiError d => d

/-- One element of the `messages` list passed to
`client.chat.completions.create`.  The `content` is whatever value the
caller supplied under `message` (the source does not coerce it). -/
structure GroqMessage where
  role : String
  content : JValue

/-- The keyword arguments of the single outbound
`client.chat.completions.create(...)` call: the `messages` list, the
`model` identifier, and any further keyword arguments (`extraParams`);
the source passes none, so `extraParams` is `[]` — in particular no
temperature and no other sampling parameter is set. -/
structure OutboundRequest where
  messages : List GroqMessage
  model : String
  extraParams : List (String × JValue)

/-- The `message` object inside one completion choice returned by the
upstream API; the relay reads its `content` field. -/
structure GroqChoiceMessage where
  content : String
  deriving Repr, DecidableEq

/-- One completion choice returned by the upstream API. -/
structure GroqChoice where
  message : GroqChoiceMessage
  deriving Repr, DecidableEq

/-- The value returned by a successful upstream call: a list of choices. -/
structure GroqChatCompletion where
  choices : List GroqChoice
  deriving Repr, DecidableEq

/-- Outcome of the upstream call: the Groq client either raises an
exception whose `str` is `detail`, or returns a completion object. -/
inductive UpstreamResult where
  | raises (detail : String)
  | returns (completion : GroqChatCompletion)
  deriving Repr, DecidableEq

/-- The upstream Groq service, abstracted as an oracle from the outbound
request to its outcome. -/
abbrev Upstream := OutboundRequest → UpstreamResult

/-- An HTTP response: a status code and a JSON body. -/
structure HttpResponse where
  status : Nat
  body : JValue

/-- Flask's `jsonify`: wraps a JSON value in a response with the default
status 200. -/
def jsonify (v : JValue) : HttpResponse :=
  ⟨200, v⟩

/-- Flask's handling of a `return jsonify(...), code` tuple: the status of
the response is replaced by `code`. -/
def withStatus (r : HttpResponse) (s : Nat) : HttpResponse :=
  ⟨s, r.body⟩

/-- The body of the 400 validation response:
`{"error": "Message is required"}` (note: no `success` field). -/
def errorRequired : JValue :=
  .jobj [("error", .jstr "Message is required")]

/-- The body of the 500 catch-all response for an exception stringifying
to `s`: `{"error": s, "success": false}`. -/
def errBody (s : String) : JValue :=
  .jobj [("error", .jstr s), ("success", .jbool false)]

/-- Result of running the `try` block of `chat`: either a response was
returned normally, or an exception was raised.  Either way, `calls` lists
the outbound upstream calls issued before that point. -/
inductive TryResult where
  | ret (resp : HttpResponse) (calls : List OutboundRequest)
  | raised (e : PyExc) (calls : List OutboundRequest)

/-- The `try` block of the `chat` handler, line by line:
`data = request.get_json()` (raises on a malformed body);
`user_message = data.get('message', '')` (raises `AttributeError` when
`data` is not a dict); the validation check `if not user_message:`
returning 400; the single `client.chat.completions.create` call with the
fixed model and a one-element `messages` list; `choices[0]` (raises
`IndexError` on an empty list); and the 200 success return. -/
def tryChat (upstream : Upstream) (body : InboundBody) : TryResult :=
  match body with
  | .malformed detail => .raised (.badRequest detail) []
  | .wellFormed data =>
    match data with
    | .jobj fields =>
      let user_message := (lookupField fields "message").getD (.jstr "")
      if !truthy user_message then
        .ret (withStatus (jsonify errorRequired) 400) []
      else
        let req : OutboundRequest :=
          ⟨[⟨"user", user_message⟩], "llama-3.3-70b-versatile", []⟩
        match upstream req with
        | .raises detail => .raised (.apiError detail) [req]
        | .returns completion =>
          match completion.choices with
          | [] => .raised .indexError [req]
          | choice :: _ =>
            .ret (jsonify (.jobj [("response", .jstr choice.message.content),
                                  ("success", .jbool true)])) [req]
    | other => .raised (.attributeError (pyTypeName other)) []

/-- What the route handler hands back to Flask: either a response, or an
exception that escaped the handler (which would crash the request). -/
inductive HandlerOutcome where
  | response (resp : HttpResponse)
  | uncaught (e : PyExc)

/-- The `chat` handler for `POST /api/chat`: run the `try` block; the
`except Exception as e` clause turns any raised exception into
`jsonify({'error': str(e), 'success': False}), 500`.  The second
component records the outbound upstream calls issued. -/
def chat (upstream : Upstream) (body : InboundBody) :
    HandlerOutcome × List OutboundRequest :=
  match tryChat upstream body with
  | .ret resp calls => (.response resp, calls)
  | .raised e calls =>
    (.response (withStatus (jsonify (errBody (PyExc.str e))) 500), calls)

/-- The process-wide Groq client, built at startup from the environment:
`Groq(api_key=os.environ.get("GROQ_API_KEY"))`.  The key is `none` when
the variable is unset. -/
structure GroqClient where
  api_key : Option String
  deriving Repr, DecidableEq

/-- The `health_check` handler for `GET /api/health`:
`return jsonify({'status': 'healthy'})`.  It receives the process state
(the client handle) but does not inspect it. -/
def health_check (_client : GroqClient) : HttpResponse :=
  jsonify (.jobj [("status", .jstr "healthy")])

/-!  ## Theorems about the claims -/

/-- Claim C1: for every `POST /api/chat` request whose body deserializes to
an object containing a non-empty (string) message, when the upstream
completion call returns normally (with at least one choice), the handler
returns HTTP 200 with JSON body `{response: r, success: true}` where `r`
is exactly the `content` of the `message` of the first element of the
completion's `choices`, unmodified. -/
theorem chat_success_returns_first_choice_content
    (upstream : Upstream) (fields : List (String × JValue)) (msg : String)
    (completion : GroqChatCompletion) (choice : GroqChoice)
    (rest : List GroqChoice)
    (hmsg : lookupField fields "message" = some (.jstr msg))
    (hne : msg ≠ "")
    (hup : upstream ⟨[⟨"user", .jstr msg⟩], "llama-3.3-70b-versatile", []⟩ =
      .returns completion)
    (hch : completion.choices = choice :: rest) :
    (chat upstream (.wellFormed (.jobj fields))).1 =
      .response ⟨200, .jobj [("response", .jstr choice.message.content),
                             ("success", .jbool true)]⟩ := by
  simp [chat, tryChat, hmsg, truthy, hne, hup, hch, jsonify]

/-- Claim C4: for every `GET /api/health` request, in every process state
(any value of the credential, including a missing one), the response is
HTTP 200 with body `{"status": "healthy"}`. -/
theorem health_check_always_healthy (client : GroqClient) :
    health_check client = ⟨200, .jobj [("status", .jstr "healthy")]⟩ :=
  rfl

/-- Witness for C1 at a concrete input: body `{"message": "Hello"}`, an
upstream that returns one choice with content `"Hi"`. -/
theorem chat_success_returns_first_choice_content_witness :
    (chat (fun _ => .returns ⟨[⟨⟨"Hi"⟩⟩]⟩)
        (.wellFormed (.jobj [("message", .jstr "Hello")]))).1 =
      .response ⟨200, .jobj [("response", .jstr "Hi"),
                             ("success", .jbool true)]⟩ :=
  chat_success_returns_first_choice_content _ _ "Hello" _ ⟨⟨"Hi"⟩⟩ []
    rfl (by decide) rfl rfl

/-- Counterexample to C2 as stated: a malformed body does NOT produce the
400 validation response; `get_json` raises, the catch-all catches, and the
handler answers 500 with the stringified exception. -/
theorem chat_malformed_body_counterexample :
    (chat (fun _ => .raises "boom") (.malformed "unparseable")).1 =
      .response ⟨500, errBody ("400 Bad Request: " ++ "unparseable")⟩ ∧
    (chat (fun _ => .raises "boom") (.malformed "unparseable")).1 ≠
      .response ⟨400, errorRequired⟩ := by
  refine ⟨rfl, fun h => ?_⟩
  simp [chat, tryChat, withStatus, jsonify] at h

/-- Claim C2 (amended): for every `POST /api/chat` request whose body
deserializes to a JSON object that lacks a `message` field or whose
`message` equals the empty string, the response is exactly HTTP 400 with
body `{"error": "Message is required"}`.  (Malformed and non-object
bodies instead hit the catch-all and yield 500.) -/
theorem chat_validation_object_body_400 (upstream : Upstream)
    (fields : List (String × JValue))
    (h : lookupField fields "message" = none ∨
         lookupField fields "message" = some (.jstr "")) :
    (chat upstream (.wellFormed (.jobj fields))).1 =
      .response ⟨400, errorRequired⟩ := by
  rcases h with h | h <;> simp [chat, tryChat, h, truthy, withStatus, jsonify]

/-- Witness for the amended C2 at a concrete input: the empty JSON object
body. -/
theorem chat_validation_object_body_400_witness :
    (chat (fun _ => .raises "boom") (.wellFormed (.jobj []))).1 =
      .response ⟨400, errorRequired⟩ :=
  chat_validation_object_body_400 _ [] (Or.inl rfl)

/-- Claim C7: for every `POST /api/chat` request whose `message` is
missing or empty after extraction, no outbound upstream call is made, and
the 400 rejection is produced instead. -/
theorem chat_no_upstream_call_on_validation_failure (upstream : Upstream)
    (fields : List (String × JValue))
    (h : lookupField fields "message" = none ∨
         lookupField fields "message" = some (.jstr "")) :
    (chat upstream (.wellFormed (.jobj fields))).2 = [] ∧
    (chat upstream (.wellFormed (.jobj fields))).1 =
      .response ⟨400, errorRequired⟩ := by
  rcases h with h | h <;> simp [chat, tryChat, h, truthy, withStatus, jsonify]

/-- Witness for C7 at a concrete input: body `{"message": ""}`. -/
theorem chat_no_upstream_call_on_validation_failure_witness :
    (chat (fun _ => .raises "boom")
        (.wellFormed (.jobj [("message", .jstr "")]))).2 = [] ∧
    (chat (fun _ => .raises "boom")
        (.wellFormed (.jobj [("message", .jstr "")]))).1 =
      .response ⟨400, errorRequired⟩ :=
  chat_no_upstream_call_on_validation_failure _ [("message", .jstr "")]
    (Or.inr rfl)

/-- Claim C10: the validation check is Python truthiness of the extracted
value.  For every object body, a falsy `message` (null, false, 0, empty
string, empty list, empty object, or absence, which defaults to the empty
string) is rejected with 400 `{"error": "Message is required"}` and no
upstream call is made, while any truthy value — string or not — passes
validation and is forwarded as the `content` field of the single outbound
message. -/
theorem chat_truthiness_validation (upstream : Upstream)
    (fields : List (String × JValue)) :
    (truthy ((lookupField fields "message").getD (.jstr "")) = false →
      (chat upstream (.wellFormed (.jobj fields))).1 =
        .response ⟨400, errorRequired⟩ ∧
      (chat upstream (.wellFormed (.jobj fields))).2 = []) ∧
    (truthy ((lookupField fields "message").getD (.jstr "")) = true →
      (chat upstream (.wellFormed (.jobj fields))).2 =
        [⟨[⟨"user", (lookupField fields "message").getD (.jstr "")⟩],
          "llama-3.3-70b-versatile", []⟩]) := by
  constructor
  · intro h
    simp [chat, tryChat, h, withStatus, jsonify]
  · intro h
    cases hup : upstream ⟨[⟨"user",
        (lookupField fields "message").getD (.jstr "")⟩],
        "llama-3.3-70b-versatile", []⟩ with
    | raises d => simp [chat, tryChat, h, hup]
    | returns completion =>
      cases completion with
      | mk choices =>
        cases choices with
        | nil => simp [chat, tryChat, h, hup]
        | cons c rest => simp [chat, tryChat, h, hup]

/-- Witness for C10 at concrete inputs: `{"message": null}` (falsy,
rejected without an upstream call) and `{"message": 5}` (truthy
non-string, forwarded as content). -/
theorem chat_truthiness_validation_witness :
    ((chat (fun _ => .raises "boom")
        (.wellFormed (.jobj [("message", .jnull)]))).1 =
          .response ⟨400, errorRequired⟩ ∧
      (chat (fun _ => .raises "boom")
        (.wellFormed (.jobj [("message", .jnull)]))).2 = []) ∧
    (chat (fun _ => .raises "boom")
        (.wellFormed (.jobj [("message", .jint 5)]))).2 =
      [⟨[⟨"user", .jint 5⟩], "llama-3.3-70b-versatile", []⟩] :=
  ⟨(chat_truthiness_validation _ _).1 rfl,
   (chat_truthiness_validation _ _).2 rfl⟩

/-- Claim C3: whenever any failure other than the validation check occurs
inside the `try` block — `get_json` raising on a malformed body, `.get`
on a non-object body, the upstream call raising, or `choices[0]` on an
empty list, i.e. whenever the block raises some exception `e` — the one
catch-all maps it, with no distinction between causes, to HTTP 500 with
body `{error: str(e), success: false}`. -/
theorem chat_catch_all_500 (upstream : Upstream) (body : InboundBody)
    (e : PyExc) (calls : List OutboundRequest)
    (h : tryChat upstream body = .raised e calls) :
    (chat upstream body).1 = .response ⟨500, errBody (PyExc.str e)⟩ := by
  simp [chat, h, withStatus, jsonify]

/-- Witness for C3 at a concrete input: a malformed body, whose
`BadRequest` exception reaches the catch-all. -/
theorem chat_catch_all_500_witness :
    (chat (fun _ => .raises "boom") (.malformed "bad")).1 =
      .response ⟨500, errBody (PyExc.str (.badRequest "bad"))⟩ :=
  chat_catch_all_500 _ _ _ [] rfl

/-- Claim C6: for every request that passes validation, exactly one
outbound completion call is issued, with the fixed model
`"llama-3.3-70b-versatile"`, a one-element `messages` list whose element
has role `"user"` and content equal to the caller's message, and no
further keyword arguments (no system prompt, no temperature, no sampling
parameters). -/
theorem chat_single_upstream_call (upstream : Upstream)
    (fields : List (String × JValue)) (m : JValue)
    (hmsg : lookupField fields "message" = some m)
    (htruthy : truthy m = true) :
    (chat upstream (.wellFormed (.jobj fields))).2 =
      [⟨[⟨"user", m⟩], "llama-3.3-70b-versatile", []⟩] := by
  cases hup : upstream ⟨[⟨"user", m⟩], "llama-3.3-70b-versatile", []⟩ with
  | raises d => simp [chat, tryChat, hmsg, htruthy, hup]
  | returns completion =>
    cases completion with
    | mk choices =>
      cases choices with
      | nil => simp [chat, tryChat, hmsg, htruthy, hup]
      | cons c rest => simp [chat, tryChat, hmsg, htruthy, hup]

/-- Witness for C6 at a concrete input: body `{"message": "Hello"}`. -/
theorem chat_single_upstream_call_witness :
    (chat (fun _ => .returns ⟨[⟨⟨"Hi"⟩⟩]⟩)
        (.wellFormed (.jobj [("message", .jstr "Hello")]))).2 =
      [⟨[⟨"user", .jstr "Hello"⟩], "llama-3.3-70b-versatile", []⟩] :=
  chat_single_upstream_call _ _ (.jstr "Hello") rfl (by decide)

/-- Case analysis on the `try` block of `chat`: it either returns the 200
success response, returns the 400 validation response having made no
upstream call, or raises some exception. -/
lemma tryChat_shape (upstream : Upstream) (body : InboundBody) :
    (∃ s calls, tryChat upstream body =
        .ret ⟨200, .jobj [("response", .jstr s), ("success", .jbool true)]⟩
          calls) ∨
    (tryChat upstream body = .ret ⟨400, errorRequired⟩ []) ∨
    (∃ e calls, tryChat upstream body = .raised e calls) := by
  cases body with
  | malformed d => exact Or.inr (Or.inr ⟨_, _, rfl⟩)
  | wellFormed v =>
    cases v with
    | jnull => exact Or.inr (Or.inr ⟨_, _, rfl⟩)
    | jbool b => exact Or.inr (Or.inr ⟨_, _, rfl⟩)
    | jint n => exact Or.inr (Or.inr ⟨_, _, rfl⟩)
    | jstr s => exact Or.inr (Or.inr ⟨_, _, rfl⟩)
    | jarr es => exact Or.inr (Or.inr ⟨_, _, rfl⟩)
    | jobj fields =>
      cases htr : truthy ((lookupField fields "message").getD (.jstr "")) with
      | false =>
        exact Or.inr (Or.inl (by simp [tryChat, htr, withStatus, jsonify]))
      | true =>
        cases hup : upstream ⟨[⟨"user",
            (lookupField fields "message").getD (.jstr "")⟩],
            "llama-3.3-70b-versatile", []⟩ with
        | raises d =>
          exact Or.inr (Or.inr ⟨.apiError d,
            [⟨[⟨"user", (lookupField fields "message").getD (.jstr "")⟩],
              "llama-3.3-70b-versatile", []⟩],
            by simp [tryChat, htr, hup]⟩)
        | returns completion =>
          cases completion with
          | mk choices =>
            cases choices with
            | nil =>
              exact Or.inr (Or.inr ⟨.indexError,
                [⟨[⟨"user", (lookupField fields "message").getD (.jstr "")⟩],
                  "llama-3.3-70b-versatile", []⟩],
                by simp [tryChat, htr, hup]⟩)
            | cons c rest =>
              exact Or.inl ⟨c.message.content,
                [⟨[⟨"user", (lookupField fields "message").getD (.jstr "")⟩],
                  "llama-3.3-70b-versatile", []⟩],
                by simp [tryChat, htr, hup, jsonify]⟩

/-- Claim C8: the handler always terminates with a response — a status
code among 200, 400, 500 and a JSON-object body — and never lets an
exception escape: every failure path is caught. -/
theorem chat_always_responds (upstream : Upstream) (body : InboundBody) :
    ∃ resp : HttpResponse, (chat upstream body).1 = .response resp ∧
      (resp.status = 200 ∨ resp.status = 400 ∨ resp.status = 500) ∧
      ∃ fs, resp.body = .jobj fs := by
  rcases tryChat_shape upstream body with ⟨s, calls, h⟩ | h | ⟨e, calls, h⟩
  · exact ⟨⟨200, .jobj [("response", .jstr s), ("success", .jbool true)]⟩,
      by simp [chat, h], Or.inl rfl,
      [("response", .jstr s), ("success", .jbool true)], rfl⟩
  · exact ⟨⟨400, errorRequired⟩, by simp [chat, h], Or.inr (Or.inl rfl),
      [("error", .jstr "Message is required")], rfl⟩
  · exact ⟨⟨500, errBody (PyExc.str e)⟩,
      by simp [chat, h, withStatus, jsonify],
      Or.inr (Or.inr rfl),
      [("error", .jstr (PyExc.str e)), ("success", .jbool false)], rfl⟩

/-- Counterexample to C9 as stated: the 400 validation response, e.g. for
the empty-object body, carries `{"error": "Message is required"}` with NO
`success` field, so `success` is not present in every response. -/
theorem chat_success_field_missing_counterexample :
    (chat (fun _ => .raises "boom") (.wellFormed (.jobj []))).1 =
      .response ⟨400, .jobj [("error", .jstr "Message is required")]⟩ ∧
    lookupField [("error", .jstr "Message is required")] "success" = none :=
  ⟨rfl, rfl⟩

/-- Claim C9 (amended): every response body of `POST /api/chat` has
exactly one of three shapes — `{response: string, success: true}` on the
success path, `{error: string, success: false}` on the catch-all failure
path, or `{error: "Message is required"}` (no `success` field) on the 400
validation path; `success`, when present, reflects which shape was
returned. -/
theorem chat_response_shapes (upstream : Upstream) (body : InboundBody) :
    (∃ s, (chat upstream body).1 =
        .response ⟨200, .jobj [("response", .jstr s),
                               ("success", .jbool true)]⟩) ∨
    (∃ s, (chat upstream body).1 =
        .response ⟨500, .jobj [("error", .jstr s),
                               ("success", .jbool false)]⟩) ∨
    ((chat upstream body).1 = .response ⟨400, errorRequired⟩ ∧
      lookupField [("error", .jstr "Message is required")] "success" =
        none) := by
  rcases tryChat_shape upstream body with ⟨s, calls, h⟩ | h | ⟨e, calls, h⟩
  · exact Or.inl ⟨s, by simp [chat, h]⟩
  · exact Or.inr (Or.inr ⟨by simp [chat, h], rfl⟩)
  · exact Or.inr (Or.inl ⟨PyExc.str e,
      by simp [chat, h, withStatus, jsonify, errBody]⟩)

/-- Claim C5: for every request whose `message` is a non-empty string —
assuming the upstream client's raised exceptions stringify to non-empty
text, as the SDK's do — the response is either 200 with a string
`response` field and `success: true`, or 500 with `success: false` and a
non-empty `error` string; no other shape occurs. -/
theorem chat_nonempty_message_dichotomy (upstream : Upstream)
    (fields : List (String × JValue)) (msg : String)
    (hmsg : lookupField fields "message" = some (.jstr msg))
    (hne : msg ≠ "")
    (hup : ∀ r d, upstream r = .raises d → d ≠ "") :
    (∃ s, (chat upstream (.wellFormed (.jobj fields))).1 =
        .response ⟨200, .jobj [("response", .jstr s),
                               ("success", .jbool true)]⟩) ∨
    (∃ s, s ≠ "" ∧ (chat upstream (.wellFormed (.jobj fields))).1 =
        .response ⟨500, .jobj [("error", .jstr s),
                               ("success", .jbool false)]⟩) := by
  cases hu : upstream ⟨[⟨"user", .jstr msg⟩],
      "llama-3.3-70b-versatile", []⟩ with
  | raises d =>
    refine Or.inr ⟨d, hup _ _ hu, ?_⟩
    simp [chat, tryChat, hmsg, truthy, hne, hu, withStatus, jsonify, errBody,
      PyExc.str]
  | returns completion =>
    cases completion with
    | mk choices =>
      cases choices with
      | nil =>
        refine Or.inr ⟨"list index out of range", by decide, ?_⟩
        simp [chat, tryChat, hmsg, truthy, hne, hu, withStatus, jsonify,
          errBody, PyExc.str]
      | cons c rest =>
        exact Or.inl ⟨c.message.content,
          by simp [chat, tryChat, hmsg, truthy, hne, hu, jsonify]⟩

/-- Witness for C5 at a concrete input: body `{"message": "Hello"}` with
an upstream that raises a connection error. -/
theorem chat_nonempty_message_dichotomy_witness :
    (∃ s, (chat (fun _ => .raises "Connection error.")
        (.wellFormed (.jobj [("message", .jstr "Hello")]))).1 =
        .response ⟨200, .jobj [("response", .jstr s),
                               ("success", .jbool true)]⟩) ∨
    (∃ s, s ≠ "" ∧ (chat (fun _ => .raises "Connection error.")
        (.wellFormed (.jobj [("message", .jstr "Hello")]))).1 =
        .response ⟨500, .jobj [("error", .jstr s),
                               ("success", .jbool false)]⟩) :=
  chat_nonempty_message_dichotomy _ _ "Hello" rfl (by decide)
    (fun r d h => by cases h; decide)
